import Mathlib

/-!
Shallow embedding of the F1 lap-time calculator core
(modules/circuit.py, modules/car.py, modules/utils.py, modules/lap_simulator.py).

Python floats are idealised as rationals; Python dict lookups against the
reference-data tables (circuits.json, tires.json, weather_presets.json) are
modelled as association-list lookups over explicit table parameters; code that
raises (ValueError / KeyError) is modelled with `Except String`; mutation of
the `Car` object is modelled by explicit state passing; the ambient random
source (`random.uniform` / `random.random`) is modelled as a stream
`σ : ℕ → ℚ` of unit draws together with a cursor index, one draw per call,
with `random.uniform a b` drawing `a + (b - a) * σ i`.
-/

/-- A sector entry of a circuit's `sectors` list (circuits.json / custom
sectors).  `type` carries the raw category string; `elevation_change` is the
value of `sector.get('elevation_change', 0)`. -/
structure Sector where
  number : ℕ
  length : ℚ
  turns : ℚ
  type : String
  elevation_change : ℚ
deriving Repr, DecidableEq

/-- A DRS-zone entry: the JSON object keyed by its `sector` number. -/
structure DRSZone where
  sector : ℕ
deriving Repr, DecidableEq

/-- The `Circuit` object after `__init__` / `create_custom_circuit`:
the fields extracted from the circuit's JSON entry. -/
structure Circuit where
  name : String
  full_name : String
  country : String
  length : ℚ
  sectors : List Sector
  drs_zones : List DRSZone
  lap_record : ℚ
  base_lap_time : ℚ
  difficulty : ℚ
deriving Repr, DecidableEq

/-- `Circuit.get_sector_data`: scan `self.sectors` for the first sector whose
`number` matches; `None` when absent. -/
def Circuit.get_sector_data (c : Circuit) (sector_number : ℕ) : Option Sector :=
  c.sectors.find? (fun s => s.number == sector_number)

/-- `Circuit.get_total_sectors`: `len(self.sectors)`. -/
def Circuit.get_total_sectors (c : Circuit) : ℕ :=
  c.sectors.length

/-- `Circuit.has_drs_in_sector`: any DRS zone bound to this sector number. -/
def Circuit.has_drs_in_sector (c : Circuit) (sector_number : ℕ) : Bool :=
  c.drs_zones.any (fun z => z.sector == sector_number)

/-- `Circuit.calculate_sector_difficulty`: base 0.8 + capped turn-density term
+ sector-type term + elevation term, clamped to [0.5, 1.2]; returns 1.0 for a
missing sector. -/
def Circuit.calculate_sector_difficulty (c : Circuit) (sector_number : ℕ) : ℚ :=
  match c.get_sector_data sector_number with
  | none => 1.0
  | some sector =>
    let base_difficulty : ℚ := 0.8
    let turn_density := sector.turns / (sector.length / 1000)
    let turn_effect := min 0.3 (turn_density * 0.1)
    let type_effect : ℚ :=
      if sector.type = "low_speed" then 0.2
      else if sector.type = "medium_speed" then 0.1
      else if sector.type = "high_speed" then -0.1
      else 0.1
    let elevation_effect := |sector.elevation_change| * 0.005
    let difficulty := base_difficulty + turn_effect + type_effect + elevation_effect
    max 0.5 (min 1.2 difficulty)

/-- `Circuit.get_sector_base_time`: the length-ratio heuristic scaled by the
sector difficulty; returns 0.0 for a missing sector. -/
def Circuit.get_sector_base_time (c : Circuit) (sector_number : ℕ) : ℚ :=
  match c.get_sector_data sector_number with
  | none => 0.0
  | some sector =>
    let sector_ratio := sector.length / c.length
    let base_sector_time := c.base_lap_time * sector_ratio
    base_sector_time * c.calculate_sector_difficulty sector_number

/-- utils.fuel_weight_to_lap_time: 0.035 s per kg per km of track. -/
def fuel_weight_to_lap_time (fuel_kg : ℚ) (circuit_length : ℚ) : ℚ :=
  fuel_kg * (circuit_length / 1000) * 0.035

/-- A tire-compound entry of tires.json's `tire_compounds` table. -/
structure TireCompound where
  grip_modifier : ℚ
  optimal_temp_low : ℚ
  optimal_temp_high : ℚ
  peak_performance_laps : ℕ
  degradation_rate : ℚ
  life_span : ℚ
deriving Repr, DecidableEq

/-- tires.json's `tire_temperature_effects` table: the cold / overheated
thresholds and grip losses. -/
structure TempEffects where
  cold_temp_threshold : ℚ
  cold_grip_loss : ℚ
  overheated_temp_threshold : ℚ
  overheated_grip_loss : ℚ
deriving Repr, DecidableEq

/-- The loaded tires.json reference table. -/
structure TireData where
  tire_compounds : List (String × TireCompound)
  tire_temperature_effects : TempEffects
deriving Repr, DecidableEq

/-- utils.calculate_tire_degradation: warm-up ramp capped at 1.0 up to
`peak_performance_laps`, then linear decline floored at 0.7. -/
def calculate_tire_degradation (current_lap : ℕ) (tire_data : TireCompound) : ℚ :=
  let peak_laps := tire_data.peak_performance_laps
  let degradation_rate := tire_data.degradation_rate
  if current_lap ≤ peak_laps then
    min 1.0 (0.95 + ((current_lap : ℚ) / (peak_laps : ℚ)) * 0.05)
  else
    let laps_past_peak : ℚ := (current_lap : ℚ) - (peak_laps : ℚ)
    max 0.7 (1.0 - laps_past_peak * degradation_rate)

/-- utils.calculate_drs_benefit: fixed benefit by sector type (0.4 default). -/
def calculate_drs_benefit (sector_data : Sector) (has_drs : Bool) : ℚ :=
  if has_drs = false then 0.0
  else if sector_data.type = "high_speed" then 0.8
  else if sector_data.type = "medium_speed" then 0.4
  else if sector_data.type = "low_speed" then 0.1
  else 0.4

/-- utils.calculate_driver_effect: `(time_modifier, mistake_probability)`. -/
def calculate_driver_effect (aggression_level : ℚ) : ℚ × ℚ :=
  (1.0 - aggression_level * 0.08, aggression_level * 0.15)

/-- A weather-condition entry of weather_presets.json. -/
structure WeatherCondition where
  name : String
  grip_modifier : ℚ
  speed_modifier : ℚ
  mistake_probability : ℚ
  optimal_tire : List String
deriving Repr, DecidableEq

/-- A track-condition entry of weather_presets.json. -/
structure TrackCondition where
  grip_modifier : ℚ
deriving Repr, DecidableEq

/-- The loaded weather_presets.json reference table. -/
structure WeatherData where
  weather_conditions : List (String × WeatherCondition)
  track_conditions : List (String × TrackCondition)
deriving Repr, DecidableEq

/-- utils.apply_weather_effect: grip/speed division, the 1.15 suboptimal-tire
penalty with its warning string, and the additive mistake-exposure term.
Returns `(modified_time, warning)`, warning `""` when none. -/
def apply_weather_effect (base_time : ℚ) (weather_data : WeatherCondition)
    (tire_compound : String) : ℚ × String :=
  let modified_time := base_time / (weather_data.grip_modifier * weather_data.speed_modifier)
  let step :=
    if tire_compound ∈ weather_data.optimal_tire then (modified_time, "")
    else (modified_time * 1.15,
      "Suboptimal tire compound for " ++ weather_data.name ++ " conditions")
  let mistake_time := base_time * weather_data.mistake_probability * 0.1
  (step.1 + mistake_time, step.2)

/-- The mutable `Car` object's state (car.py).  `power_unit_power` and
`base_weight` are the constants set in `__init__`; the tires.json table that
`Car.__init__` loads is passed explicitly to the functions that read it. -/
structure Car where
  tire_compound : String
  fuel_load : ℚ
  downforce_level : ℤ
  engine_mode : String
  ers_deployment : String
  base_weight : ℚ
  power_unit_power : ℚ
  drag_coefficient : ℚ
  current_lap : ℕ
  tire_temperature : ℚ
deriving Repr, DecidableEq

/-- `Car.__init__`: validates the tire compound against the table and the fuel
load against [0, 110] (raising `ValueError` otherwise), then sets the default
setup, car constants and initial tire state. -/
def Car.init (tire_data : TireData) (tire_compound : String) (fuel_load : ℚ) :
    Except String Car :=
  match List.lookup tire_compound tire_data.tire_compounds with
  | none => .error ("Tire compound " ++ tire_compound ++ " not found")
  | some _ =>
    if 0 ≤ fuel_load ∧ fuel_load ≤ 110 then
      .ok { tire_compound := tire_compound
            fuel_load := fuel_load
            downforce_level := 5
            engine_mode := "race"
            ers_deployment := "auto"
            base_weight := 798
            power_unit_power := 1000
            drag_coefficient := 1.0
            current_lap := 1
            tire_temperature := 90 }
    else .error "Fuel load must be between 0 and 110 kg"

/-- `Car.set_setup`: validates downforce 1..10 and the engine / ERS mode
strings, then updates the setup fields and the derived drag coefficient. -/
def Car.set_setup (c : Car) (downforce : ℤ) (engine_mode : String)
    (ers_deployment : String) : Except String Car :=
  if ¬(1 ≤ downforce ∧ downforce ≤ 10) then
    .error "Downforce level must be between 1 and 10"
  else if ¬(engine_mode ∈ ["quali", "race", "conservation"]) then
    .error "Engine mode must be one of quali, race, conservation"
  else if ¬(ers_deployment ∈ ["auto", "aggressive", "conservative"]) then
    .error "ERS deployment must be one of auto, aggressive, conservative"
  else
    .ok { c with downforce_level := downforce
                 engine_mode := engine_mode
                 ers_deployment := ers_deployment
                 drag_coefficient := 0.7 + ((downforce : ℚ) / 10) * 0.6 }

/-- `Car._calculate_temperature_effect`: 1.0 in the compound's optimal range,
flat losses below/above the cold/overheated thresholds, else a linear 0.05 per
20 degrees interpolation; `none` when the compound is missing (KeyError). -/
def Car.calculate_temperature_effect (tire_data : TireData) (c : Car) : Option ℚ :=
  match List.lookup c.tire_compound tire_data.tire_compounds with
  | none => none
  | some tire_info =>
    let temp_effects := tire_data.tire_temperature_effects
    some (
      if tire_info.optimal_temp_low ≤ c.tire_temperature ∧
         c.tire_temperature ≤ tire_info.optimal_temp_high then 1.0
      else if c.tire_temperature < temp_effects.cold_temp_threshold then
        1.0 - temp_effects.cold_grip_loss
      else if c.tire_temperature > temp_effects.overheated_temp_threshold then
        1.0 - temp_effects.overheated_grip_loss
      else if c.tire_temperature < tire_info.optimal_temp_low then
        1.0 - ((tire_info.optimal_temp_low - c.tire_temperature) / 20) * 0.05
      else
        1.0 - ((c.tire_temperature - tire_info.optimal_temp_high) / 20) * 0.05)

/-- The dictionary returned by `Car.get_tire_performance`. -/
structure TirePerformance where
  base_grip : ℚ
  degradation_multiplier : ℚ
  temperature_effect : ℚ
  effective_grip : ℚ
  compound : String
  lap_number : ℕ
  tire_life_remaining : ℚ
deriving Repr, DecidableEq

/-- `Car.get_tire_performance` with an explicit lap number: base grip ×
degradation × temperature effect; `none` when the compound is missing. -/
def Car.get_tire_performance (tire_data : TireData) (c : Car) (lap_number : ℕ) :
    Option TirePerformance :=
  match List.lookup c.tire_compound tire_data.tire_compounds with
  | none => none
  | some tire_info =>
    match Car.calculate_temperature_effect tire_data c with
    | none => none
    | some temp_effect =>
      let base_grip := tire_info.grip_modifier
      let degradation_multiplier := calculate_tire_degradation lap_number tire_info
      some { base_grip := base_grip
             degradation_multiplier := degradation_multiplier
             temperature_effect := temp_effect
             effective_grip := base_grip * degradation_multiplier * temp_effect
             compound := c.tire_compound
             lap_number := lap_number
             tire_life_remaining := max 0 (1 - ((lap_number : ℚ) / tire_info.life_span)) }

/-- The dictionary returned by `Car.get_engine_performance`. -/
structure EnginePerformance where
  base_power : ℚ
  engine_mode_multiplier : ℚ
  effective_power : ℚ
  ers_contribution : ℚ
  total_power : ℚ
  fuel_consumption_rate : ℚ
  reliability_factor : ℚ
deriving Repr, DecidableEq

/-- The `engine_modifiers` dict of `Car.get_engine_performance`:
`(power, fuel_consumption, reliability)` by mode; `none` = KeyError. -/
def engineModifiers (mode : String) : Option (ℚ × ℚ × ℚ) :=
  if mode = "quali" then some (1.08, 1.5, 0.95)
  else if mode = "race" then some (1.0, 1.0, 1.0)
  else if mode = "conservation" then some (0.92, 0.85, 1.05)
  else none

/-- The `ers_modifiers` dict of `Car.get_engine_performance`:
`(power_boost, deployment_time)` by mode; `none` = KeyError. -/
def ersModifiers (mode : String) : Option (ℚ × ℚ) :=
  if mode = "aggressive" then some (50, 0.8)
  else if mode = "auto" then some (35, 0.6)
  else if mode = "conservative" then some (25, 0.4)
  else none

/-- `Car.get_engine_performance`: mode-scaled base power plus the ERS
deployment contribution. -/
def Car.get_engine_performance (c : Car) : Option EnginePerformance :=
  match engineModifiers c.engine_mode with
  | none => none
  | some engine_mod =>
    match ersModifiers c.ers_deployment with
    | none => none
    | some ers_mod =>
      let base_power := c.power_unit_power
      let effective_power := base_power * engine_mod.1
      let ers_contribution := ers_mod.1 * ers_mod.2
      some { base_power := base_power
             engine_mode_multiplier := engine_mod.1
             effective_power := effective_power
             ers_contribution := ers_contribution
             total_power := effective_power + ers_contribution
             fuel_consumption_rate := engine_mod.2.1
             reliability_factor := engine_mod.2.2 }

/-- The dictionary returned by `Car.get_aerodynamic_balance` (numeric part). -/
structure AeroBalance where
  downforce_level : ℤ
  cornering_multiplier : ℚ
  drag_multiplier : ℚ
  drag_coefficient : ℚ
deriving Repr, DecidableEq

/-- `Car.get_aerodynamic_balance`: cornering and drag multipliers derived from
the downforce level. -/
def Car.get_aerodynamic_balance (c : Car) : AeroBalance :=
  let downforce_efficiency := (c.downforce_level : ℚ) / 10
  { downforce_level := c.downforce_level
    cornering_multiplier := 1.0 + downforce_efficiency * 0.15
    drag_multiplier := 1.0 + downforce_efficiency * 0.08
    drag_coefficient := c.drag_coefficient }

/-- `Car.get_total_weight`. -/
def Car.get_total_weight (c : Car) : ℚ :=
  c.base_weight + c.fuel_load

/-- The `consumption_rates` dict of `Car._estimate_fuel_laps`. -/
def consumptionRates (mode : String) : Option ℚ :=
  if mode = "quali" then some 3.5
  else if mode = "race" then some 2.8
  else if mode = "conservation" then some 2.3
  else none

/-- The dictionary returned by `Car.get_fuel_effect`. -/
structure FuelEffect where
  fuel_load : ℚ
  total_weight : ℚ
  time_penalty : ℚ
  handling_multiplier : ℚ
  laps_remaining : ℤ
deriving Repr, DecidableEq

/-- `Car.get_fuel_effect`: the fuel time penalty, handling multiplier, and the
truncated laps-remaining estimate of `_estimate_fuel_laps`. -/
def Car.get_fuel_effect (c : Car) (circuit_length : ℚ) : Option FuelEffect :=
  match consumptionRates c.engine_mode with
  | none => none
  | some consumption_per_lap =>
    some { fuel_load := c.fuel_load
           total_weight := c.get_total_weight
           time_penalty := fuel_weight_to_lap_time c.fuel_load circuit_length
           handling_multiplier := 1.0 + c.fuel_load / 1000
           laps_remaining := Int.floor (c.fuel_load / consumption_per_lap) }

/-- The `temp_changes` per-sector-type temperature delta of
`Car.update_tire_state` (`dict.get(sector_type, 0)`). -/
def tempChange (sector_type : String) : ℚ :=
  if sector_type = "low_speed" then -2
  else if sector_type = "medium_speed" then 0
  else if sector_type = "high_speed" then 3
  else 0

/-- `Car.update_tire_state`: set the current lap and adjust the tire
temperature by the per-category delta, clamped to [60, 140]. -/
def Car.update_tire_state (c : Car) (lap_number : ℕ) (sector_type : String) : Car :=
  { c with current_lap := lap_number
           tire_temperature := max 60 (min 140 (c.tire_temperature + tempChange sector_type)) }

/-- The direct `self.car.current_lap = lap` assignment performed by
`LapSimulator.simulate_stint` after each lap. -/
def Car.setCurrentLap (c : Car) (lap : ℕ) : Car :=
  { c with current_lap := lap }

/-- The `LapSimulator` object's state (lap_simulator.py) minus the car, which
is threaded explicitly through the stateful operations. -/
structure Sim where
  circuit : Circuit
  weather : String
  weather_data : WeatherData
  current_weather : WeatherCondition
  driver_aggression : ℚ
  track_condition : String
  use_drs : Bool
  simulation_variance : ℚ
deriving Repr, DecidableEq

/-- `LapSimulator.__init__`: validates the weather name against the table
(raising `ValueError` otherwise) and sets the default simulation parameters. -/
def Sim.init (weather_data : WeatherData) (circuit : Circuit) (weather : String) :
    Except String Sim :=
  match List.lookup weather weather_data.weather_conditions with
  | none => .error ("Weather " ++ weather ++ " not found")
  | some current_weather =>
    .ok { circuit := circuit
          weather := weather
          weather_data := weather_data
          current_weather := current_weather
          driver_aggression := 0.5
          track_condition := "rubbered_in"
          use_drs := true
          simulation_variance := 0.02 }

/-- `LapSimulator.set_driver_parameters`: validates aggression in [0, 1]. -/
def Sim.set_driver_parameters (s : Sim) (aggression : ℚ) (use_drs : Bool) :
    Except String Sim :=
  if ¬(0 ≤ aggression ∧ aggression ≤ 1) then
    .error "Driver aggression must be between 0.0 and 1.0"
  else
    .ok { s with driver_aggression := aggression, use_drs := use_drs }

/-- `LapSimulator.set_track_condition`: validates the name against the table. -/
def Sim.set_track_condition (s : Sim) (condition : String) : Except String Sim :=
  match List.lookup condition s.weather_data.track_conditions with
  | none => .error ("Track condition " ++ condition ++ " not found")
  | some _ =>
    .ok { s with track_condition := condition }

/-- The `modifiers` dict built by `LapSimulator._calculate_all_modifiers`,
plus the `driver_mistake` entry added when the mistake branch fires. -/
structure Modifiers where
  tire_grip : ℚ
  tire_degradation : ℚ
  tire_temperature : ℚ
  fuel_penalty : ℚ
  downforce_level : ℤ
  engine_power : ℚ
  weather_grip : ℚ
  track_condition : ℚ
  driver_aggression : ℚ
  driver_mistake : Option ℚ
deriving Repr, DecidableEq

/-- The dictionary returned by `LapSimulator.calculate_sector_time`. -/
structure SectorResult where
  sector_number : ℕ
  time : ℚ
  base_time : ℚ
  modifiers : Modifiers
  warnings : List String
  has_drs : Bool
  sector_data : Sector
deriving Repr, DecidableEq

/-- The random-variance step of `calculate_sector_time`: when
`simulation_variance > 0`, draw `random.uniform(-v, v)` (one draw) and scale;
returns the new time and cursor. -/
def varianceStep (v : ℚ) (t : ℚ) (σ : ℕ → ℚ) (i : ℕ) : ℚ × ℕ :=
  if v > 0 then
    (t * (1.0 + (-v + (v - -v) * σ i)), i + 1)
  else (t, i)

/-- The driver-mistake step of `calculate_sector_time`: draw `random.random()`
(one draw); when it is below the mistake probability, draw
`random.uniform(0.05, 0.15)` (a second draw) and add that fraction of the
time.  Returns the new time, the `driver_mistake` modifier, and the cursor. -/
def mistakeStep (mistake_prob : ℚ) (t : ℚ) (σ : ℕ → ℚ) (i : ℕ) :
    ℚ × Option ℚ × ℕ :=
  if σ i < mistake_prob then
    let mistake_time := t * (0.05 + (0.15 - 0.05) * σ (i + 1))
    (t + mistake_time, some mistake_time, i + 2)
  else (t, none, i + 1)

/-- The deterministic data computed by `calculate_sector_time` before the two
random draws: the time after steps 1–11 of the pipeline, the mistake
probability, the sector's base time and data, the warning, the modifiers
dict, and the car after `update_tire_state`. -/
structure SectorCore where
  pre_random_time : ℚ
  mistake_prob : ℚ
  base_sector_time : ℚ
  sector_data : Sector
  weather_warning : String
  modifiers : Modifiers
  car_after : Car
deriving Repr, DecidableEq

/-- The deterministic prefix of `LapSimulator.calculate_sector_time` (steps
before the random variance / mistake draws), exactly in source order: base
time, tire-state mutation, tire grip division, amortised fuel penalty,
category-dependent aero adjustment, power divisor, DRS subtraction, weather
effect, track-condition division, driver aggression. -/
def sectorCore (tire_data : TireData) (s : Sim) (car : Car)
    (sector_number lap_number : ℕ) : Except String SectorCore :=
  let base_sector_time := s.circuit.get_sector_base_time sector_number
  match s.circuit.get_sector_data sector_number with
  | none => .error ("Sector " ++ toString sector_number ++ " not found in circuit")
  | some sector_data =>
    let car1 := car.update_tire_state lap_number sector_data.type
    match car1.get_tire_performance tire_data lap_number with
    | none => .error "tire compound not found"
    | some tire_performance =>
      match car1.get_engine_performance with
      | none => .error "engine mode not found"
      | some engine_performance =>
        let aero_balance := car1.get_aerodynamic_balance
        match car1.get_fuel_effect s.circuit.length with
        | none => .error "engine mode not found"
        | some fuel_effect =>
          match List.lookup s.track_condition s.weather_data.track_conditions with
          | none => .error "track condition not found"
          | some track_cond =>
            let modifiers : Modifiers :=
              { tire_grip := tire_performance.effective_grip
                tire_degradation := tire_performance.degradation_multiplier
                tire_temperature := tire_performance.temperature_effect
                fuel_penalty := fuel_effect.time_penalty
                downforce_level := car1.downforce_level
                engine_power := engine_performance.total_power
                weather_grip := s.current_weather.grip_modifier
                track_condition := track_cond.grip_modifier
                driver_aggression := s.driver_aggression
                driver_mistake := none }
            let t1 := base_sector_time / tire_performance.effective_grip
            let t2 := t1 + fuel_effect.time_penalty / (s.circuit.get_total_sectors : ℚ)
            let t3 :=
              if sector_data.type = "high_speed" then t2 * aero_balance.drag_multiplier
              else if sector_data.type = "low_speed" then t2 / aero_balance.cornering_multiplier
              else
                t2 * (1.0 + (aero_balance.drag_multiplier - 1.0) * 0.5
                          - (aero_balance.cornering_multiplier - 1.0) * 0.5)
            let power_factor := engine_performance.total_power / 1000
            let t4 := t3 / (0.95 + power_factor * 0.05)
            let t5 :=
              if s.use_drs && s.circuit.has_drs_in_sector sector_number then
                t4 - calculate_drs_benefit sector_data true
              else t4
            let weathered := apply_weather_effect t5 s.current_weather car1.tire_compound
            let t6 := weathered.1 / track_cond.grip_modifier
            let driver := calculate_driver_effect s.driver_aggression
            .ok { pre_random_time := t6 * driver.1
                  mistake_prob := driver.2
                  base_sector_time := base_sector_time
                  sector_data := sector_data
                  weather_warning := weathered.2
                  modifiers := modifiers
                  car_after := car1 }

/-- `LapSimulator.calculate_sector_time`: the deterministic prefix followed by
the random variance draw and the random mistake draw, in source order, then
the clamp to a non-negative time.  Returns the sector result, the mutated
car, and the advanced random cursor. -/
def calculate_sector_time (tire_data : TireData) (s : Sim) (car : Car)
    (sector_number lap_number : ℕ) (σ : ℕ → ℚ) (i : ℕ) :
    Except String (SectorResult × Car × ℕ) :=
  match sectorCore tire_data s car sector_number lap_number with
  | .error e => .error e
  | .ok core =>
    let stepped := varianceStep s.simulation_variance core.pre_random_time σ i
    let mistaken := mistakeStep core.mistake_prob stepped.1 σ stepped.2
    .ok ({ sector_number := sector_number
           time := max 0 mistaken.1
           base_time := core.base_sector_time
           modifiers := { core.modifiers with driver_mistake := mistaken.2.1 }
           warnings := if core.weather_warning = "" then [] else [core.weather_warning]
           has_drs := s.circuit.has_drs_in_sector sector_number
           sector_data := core.sector_data },
         core.car_after,
         mistaken.2.2)

/-- Fold of Python's `min(range(len(l)), key=lambda i: l[i])` over an
enumerated list: the first index attaining the minimum (strict `<` keeps the
earlier index on ties). -/
def argminAux : List (ℕ × ℚ) → ℕ × ℚ → ℕ × ℚ
  | [], best => best
  | p :: rest, best => argminAux rest (if p.2 < best.2 then p else best)

/-- Fold of Python's `max(range(len(l)), key=lambda i: l[i])`: the first index
attaining the maximum. -/
def argmaxAux : List (ℕ × ℚ) → ℕ × ℚ → ℕ × ℚ
  | [], best => best
  | p :: rest, best => argmaxAux rest (if p.2 > best.2 then p else best)

/-- The dictionary returned by `LapSimulator._calculate_lap_statistics`
(`time_loss_breakdown` inlined as the four `loss_` fields). -/
structure LapStatistics where
  fastest_sector : ℕ
  slowest_sector : ℕ
  sector_balance : ℚ
  theoretical_best : ℚ
  time_delta_to_theoretical : ℚ
  average_sector_time : ℚ
  tire_performance_remaining : ℚ
  estimated_fuel_remaining : ℚ
  loss_tire_degradation : ℚ
  loss_fuel_weight : ℚ
  loss_weather_conditions : ℚ
  loss_suboptimal_setup : ℚ
deriving Repr, DecidableEq

/-- `LapSimulator._calculate_lap_statistics`, reading the car state left by
the lap's sector loop.  Python's `min()` / `max()` raise on an empty sector
list (a circuit with no sectors), modelled by the error case. -/
def calculate_lap_statistics (tire_data : TireData) (s : Sim) (car : Car)
    (sector_results : List SectorResult) (total_time : ℚ) :
    Except String LapStatistics :=
  match sector_results with
  | [] => .error "min arg is an empty sequence"
  | r0 :: rest =>
    let sector_times := (r0 :: rest).map (fun r => r.time)
    let enumerated := sector_times.enum
    let fastest := (argminAux enumerated.tail (enumerated.headD (0, 0))).1
    let slowest := (argmaxAux enumerated.tail (enumerated.headD (0, 0))).1
    let theoretical_best := ((r0 :: rest).map (fun r => r.base_time)).sum
    match car.get_tire_performance tire_data car.current_lap with
    | none => .error "tire compound not found"
    | some tire_perf =>
      .ok { fastest_sector := fastest + 1
            slowest_sector := slowest + 1
            sector_balance :=
              (sector_times.tail.foldl max (sector_times.headD 0)) -
              (sector_times.tail.foldl min (sector_times.headD 0))
            theoretical_best := theoretical_best
            time_delta_to_theoretical := total_time - theoretical_best
            average_sector_time := total_time / ((r0 :: rest).length : ℚ)
            tire_performance_remaining := tire_perf.tire_life_remaining
            estimated_fuel_remaining := max 0 (car.fuel_load - 2.8 * (car.current_lap : ℚ))
            loss_tire_degradation := total_time * (1 - tire_perf.degradation_multiplier) * 0.1
            loss_fuel_weight :=
              ((r0 :: rest).map (fun r => r.modifiers.fuel_penalty)).sum /
              ((r0 :: rest).length : ℚ)
            loss_weather_conditions := total_time * (1 - s.current_weather.grip_modifier) * 0.05
            loss_suboptimal_setup := 0 }

/-- The `conditions` snapshot embedded in a lap result. -/
structure Conditions where
  circuit : String
  weather : String
  track_condition : String
  tire_compound : String
  fuel_load : ℚ
deriving Repr, DecidableEq

/-- The dictionary returned by `LapSimulator.simulate_full_lap`. -/
structure LapResult where
  lap_number : ℕ
  total_time : ℚ
  sector_times : List ℚ
  sector_results : List SectorResult
  lap_statistics : LapStatistics
  warnings : List String
  conditions : Conditions
deriving Repr, DecidableEq

/-- The sector loop of `simulate_full_lap`: run `calculate_sector_time` on
each listed sector number in order, threading the car and the random cursor
and collecting the results. -/
def runSectors (tire_data : TireData) (s : Sim) (lap_number : ℕ) :
    List ℕ → Car → (ℕ → ℚ) → ℕ → Except String (List SectorResult × Car × ℕ)
  | [], car, _, i => .ok ([], car, i)
  | n :: ns, car, σ, i =>
    match calculate_sector_time tire_data s car n lap_number σ i with
    | .error e => .error e
    | .ok (r, car1, i1) =>
      match runSectors tire_data s lap_number ns car1 σ i1 with
      | .error e => .error e
      | .ok (rs, car2, i2) => .ok (r :: rs, car2, i2)

/-- `LapSimulator.simulate_full_lap`: sectors `1 .. get_total_sectors` in
order, total time as the running sum of sector times, statistics from the
post-lap car state, and the de-duplicated warning list (Python's
`list(set(...))` modelled as first-occurrence de-duplication). -/
def simulate_full_lap (tire_data : TireData) (s : Sim) (car : Car)
    (lap_number : ℕ) (σ : ℕ → ℚ) (i : ℕ) : Except String (LapResult × Car × ℕ) :=
  match runSectors tire_data s lap_number (List.range' 1 s.circuit.get_total_sectors) car σ i with
  | .error e => .error e
  | .ok (sector_results, car1, i1) =>
    match calculate_lap_statistics tire_data s car1 sector_results
        ((sector_results.map (fun r => r.time)).sum) with
    | .error e => .error e
    | .ok lap_stats =>
      .ok ({ lap_number := lap_number
             total_time := (sector_results.map (fun r => r.time)).sum
             sector_times := sector_results.map (fun r => r.time)
             sector_results := sector_results
             lap_statistics := lap_stats
             warnings := ((sector_results.map (fun r => r.warnings)).flatten).eraseDups
             conditions := { circuit := s.circuit.name
                             weather := s.weather
                             track_condition := s.track_condition
                             tire_compound := car.tire_compound
                             fuel_load := car.fuel_load } },
           car1, i1)

/-- `LapSimulator.simulate_stint`: one full lap per lap number from
`start_lap`, threading the car (including the loop's trailing
`self.car.current_lap = lap` assignment) and the random cursor. -/
def simulate_stint (tire_data : TireData) (s : Sim) :
    ℕ → ℕ → Car → (ℕ → ℚ) → ℕ → Except String (List LapResult × Car × ℕ)
  | 0, _, car, _, i => .ok ([], car, i)
  | num_laps + 1, lap, car, σ, i =>
    match simulate_full_lap tire_data s car lap σ i with
    | .error e => .error e
    | .ok (lr, car1, i1) =>
      match simulate_stint tire_data s num_laps (lap + 1) (car1.setCurrentLap lap) σ i1 with
      | .error e => .error e
      | .ok (rest, car2, i2) => .ok (lr :: rest, car2, i2)

/-- A candidate configuration dict passed to `compare_configurations`;
`none` fields are absent keys, read back with the source's `.get` defaults. -/
structure Config where
  tire : Option String
  fuel : Option ℚ
  downforce : Option ℤ
  engine_mode : Option String
  ers : Option String
deriving Repr, DecidableEq

/-- A `compare_configurations` result entry: the lap result plus the
`configuration` and `config_index` keys added by the loop. -/
structure CompResult where
  result : LapResult
  configuration : Config
  config_index : ℕ
deriving Repr, DecidableEq

/-- The candidate loop of `compare_configurations` (`for i, config in
enumerate(configurations)`): per candidate, construct an independent car
(`Car(...)` then `set_setup` when any setup key is present), a fresh
simulator with the shared circuit / weather / driver parameters / track
condition, and run a single lap with lap number 1. -/
def runCompare (tire_data : TireData) (s : Sim) :
    List Config → ℕ → (ℕ → ℚ) → ℕ → Except String (List CompResult × ℕ)
  | [], _, _, i => .ok ([], i)
  | config :: rest, idx, σ, i =>
    match Car.init tire_data (config.tire.getD "medium") (config.fuel.getD 50.0) with
    | .error e => .error e
    | .ok temp_car0 =>
      match (if config.downforce.isSome || config.engine_mode.isSome || config.ers.isSome then
          temp_car0.set_setup (config.downforce.getD 5) (config.engine_mode.getD "race")
            (config.ers.getD "auto")
        else .ok temp_car0) with
      | .error e => .error e
      | .ok temp_car =>
        match Sim.init s.weather_data s.circuit s.weather with
        | .error e => .error e
        | .ok sim0 =>
          match sim0.set_driver_parameters s.driver_aggression s.use_drs with
          | .error e => .error e
          | .ok sim1 =>
            match sim1.set_track_condition s.track_condition with
            | .error e => .error e
            | .ok sim2 =>
              match simulate_full_lap tire_data sim2 temp_car 1 σ i with
              | .error e => .error e
              | .ok (lap_result, _, i1) =>
                match runCompare tire_data s rest (idx + 1) σ i1 with
                | .error e => .error e
                | .ok (rs, i2) =>
                  .ok ({ result := lap_result
                         configuration := config
                         config_index := idx } :: rs, i2)

/-- The comparator of `results.sort(key=lambda x: x['total_time'])`. -/
def compLE (a b : CompResult) : Bool :=
  decide (a.result.total_time ≤ b.result.total_time)

/-- `LapSimulator.compare_configurations`: evaluate every candidate, then sort
ascending by total lap time with Python's stable sort (modelled by the stable
`List.mergeSort`). -/
def compare_configurations (tire_data : TireData) (s : Sim) (configurations : List Config)
    (σ : ℕ → ℚ) (i : ℕ) : Except String (List CompResult × ℕ) :=
  match runCompare tire_data s configurations 0 σ i with
  | .error e => .error e
  | .ok (results, i1) => .ok (results.mergeSort compLE, i1)

/-- A circuits.json catalog entry (the fields `Circuit.__init__` extracts,
with the source's `.get` defaults already applied). -/
structure CircuitEntry where
  name : String
  country : String
  length : ℚ
  sectors : List Sector
  drs_zones : List DRSZone
  lap_record : ℚ
  base_lap_time : ℚ
  difficulty : ℚ
deriving Repr, DecidableEq

/-- `Circuit.__init__`: look the requested name up in the loaded circuits
table; an unknown name raises `ValueError` and no `Circuit` is constructed. -/
def Circuit.init (circuits_data : List (String × CircuitEntry)) (circuit_name : String) :
    Except String Circuit :=
  match List.lookup circuit_name circuits_data with
  | none => .error ("Circuit " ++ circuit_name ++ " not found")
  | some entry =>
    .ok { name := circuit_name
          full_name := entry.name
          country := entry.country
          length := entry.length
          sectors := entry.sectors
          drs_zones := entry.drs_zones
          lap_record := entry.lap_record
          base_lap_time := entry.base_lap_time
          difficulty := entry.difficulty }

/-- Whether an `Except` value is an error (a raised Python exception). -/
def exceptIsError {α : Type} (x : Except String α) : Bool :=
  match x with
  | .error _ => true
  | .ok _ => false

/-- The car states reachable through the code's mutators: construction by
`Car.__init__`, reconfiguration by `Car.set_setup`, the tire-state update of
`Car.update_tire_state`, and `simulate_stint`'s direct `current_lap`
assignment.  No other code writes to a `Car`. -/
inductive CarReachable (tire_data : TireData) : Car → Prop
  | init (tire_compound : String) (fuel_load : ℚ) (c : Car) :
      Car.init tire_data tire_compound fuel_load = .ok c → CarReachable tire_data c
  | setup (c : Car) (downforce : ℤ) (engine_mode ers_deployment : String) (c1 : Car) :
      CarReachable tire_data c → c.set_setup downforce engine_mode ers_deployment = .ok c1 →
      CarReachable tire_data c1
  | tire_state (c : Car) (lap_number : ℕ) (sector_type : String) :
      CarReachable tire_data c → CarReachable tire_data (c.update_tire_state lap_number sector_type)
  | lap_index (c : Car) (lap : ℕ) :
      CarReachable tire_data c → CarReachable tire_data (c.setCurrentLap lap)

/-- The single 5000 m / 10-turn / medium_speed sector of the spec's concrete
scenario (§8). -/
def scenarioSector : Sector :=
  { number := 1, length := 5000, turns := 10, type := "medium_speed", elevation_change := 0 }

/-- The spec's concrete scenario track: one 5000 m medium-speed segment with
10 turns and a 100 s base lap time. -/
def scenarioCircuit : Circuit :=
  { name := "custom"
    full_name := "Scenario"
    country := "Custom"
    length := 5000
    sectors := [scenarioSector]
    drs_zones := []
    lap_record := 0
    base_lap_time := 100
    difficulty := 0.8 }

/-- A representative medium tire compound. -/
def mediumCompound : TireCompound :=
  { grip_modifier := 1.0
    optimal_temp_low := 85
    optimal_temp_high := 105
    peak_performance_laps := 10
    degradation_rate := 1/50
    life_span := 30 }

/-- A representative tires.json table. -/
def tireDataFixture : TireData :=
  { tire_compounds := [("medium", mediumCompound)]
    tire_temperature_effects :=
      { cold_temp_threshold := 70
        cold_grip_loss := 0.3
        overheated_temp_threshold := 120
        overheated_grip_loss := 0.25 } }

/-- A representative dry weather entry. -/
def dryWeather : WeatherCondition :=
  { name := "dry"
    grip_modifier := 1.0
    speed_modifier := 1.0
    mistake_probability := 0
    optimal_tire := ["soft", "medium", "hard"] }

/-- A representative weather_presets.json table. -/
def weatherDataFixture : WeatherData :=
  { weather_conditions := [("dry", dryWeather)]
    track_conditions := [("rubbered_in", { grip_modifier := 1.0 })] }

/-- The simulator state for the scenario circuit in dry weather with the
source's default parameters. -/
def simFixture : Sim :=
  { circuit := scenarioCircuit
    weather := "dry"
    weather_data := weatherDataFixture
    current_weather := dryWeather
    driver_aggression := 0.5
    track_condition := "rubbered_in"
    use_drs := true
    simulation_variance := 0.02 }

/-- The car produced by `Car.__init__` on medium tires with 50 kg of fuel. -/
def carFixture : Car :=
  { tire_compound := "medium"
    fuel_load := 50
    downforce_level := 5
    engine_mode := "race"
    ers_deployment := "auto"
    base_weight := 798
    power_unit_power := 1000
    drag_coefficient := 1.0
    current_lap := 1
    tire_temperature := 90 }

/-- C1 counterexample: looking up segment 2 on a one-segment track yields
`None` rather than raising, and the dependent base-time computation returns
0.0 for the missing segment — it substitutes zero instead of surfacing a
NotFound error. -/
theorem sector_lookup_counterexample :
    scenarioCircuit.get_sector_data 2 = none ∧
    scenarioCircuit.get_sector_base_time 2 = 0 ∧
    scenarioCircuit.calculate_sector_difficulty 2 = 1 := by
  have h : scenarioCircuit.get_sector_data 2 = none := rfl
  refine ⟨h, ?_, ?_⟩
  · unfold Circuit.get_sector_base_time
    rw [h]
    show (0.0 : ℚ) = 0
    norm_num
  · unfold Circuit.calculate_sector_difficulty
    rw [h]
    show (1.0 : ℚ) = 1
    norm_num

/-- C1 (amended): for a segment number absent from the track, the lookup
returns `None`, the base-time computation substitutes 0.0 (and the difficulty
computation substitutes 1.0) instead of failing, and it is the lap engine's
sector-time computation that raises the error for the missing segment. -/
theorem missing_sector_behavior (tire_data : TireData) (s : Sim) (car : Car)
    (n lap : ℕ) (σ : ℕ → ℚ) (i : ℕ)
    (h : s.circuit.get_sector_data n = none) :
    s.circuit.get_sector_base_time n = 0 ∧
    s.circuit.calculate_sector_difficulty n = 1 ∧
    calculate_sector_time tire_data s car n lap σ i =
      .error ("Sector " ++ toString n ++ " not found in circuit") := by
  refine ⟨?_, ?_, ?_⟩
  · unfold Circuit.get_sector_base_time
    rw [h]
    show (0.0 : ℚ) = 0
    norm_num
  · unfold Circuit.calculate_sector_difficulty
    rw [h]
    show (1.0 : ℚ) = 1
    norm_num
  · unfold calculate_sector_time sectorCore
    rw [h]

/-- Witness for the amended C1 statement at the concrete one-segment track. -/
theorem missing_sector_behavior_witness :
    simFixture.circuit.get_sector_base_time 2 = 0 ∧
    simFixture.circuit.calculate_sector_difficulty 2 = 1 ∧
    calculate_sector_time tireDataFixture simFixture carFixture 2 1 (fun _ => 0) 0 =
      .error ("Sector " ++ toString 2 ++ " not found in circuit") :=
  missing_sector_behavior tireDataFixture simFixture carFixture 2 1 (fun _ => 0) 0 (by decide)

/-- C2 counterexample: on the spec's scenario (one 5000 m medium-speed
segment, 10 turns, base lap time 100 s) the code's difficulty formula yields
0.8 + min(0.3, 2×0.1) + 0.1 = 1.1, not ≈ 0.9, and the segment base time is
110 s, not ≈ 90 s. -/
theorem scenario_difficulty_counterexample :
    scenarioCircuit.calculate_sector_difficulty 1 = 11/10 ∧
    scenarioCircuit.get_sector_base_time 1 = 110 ∧
    ¬(scenarioCircuit.get_sector_base_time 1 ≤ 95) := by
  have h : scenarioCircuit.get_sector_data 1 = some scenarioSector := rfl
  have hd : scenarioCircuit.calculate_sector_difficulty 1 = 11/10 := by
    unfold Circuit.calculate_sector_difficulty
    rw [h]
    norm_num [scenarioSector, min_def, max_def,
      show ¬(("medium_speed" : String) = "low_speed") from by decide]
  have hb : scenarioCircuit.get_sector_base_time 1 = 110 := by
    unfold Circuit.get_sector_base_time
    rw [h, hd]
    show scenarioCircuit.base_lap_time * (scenarioSector.length / scenarioCircuit.length) * (11/10) = 110
    norm_num [scenarioSector, scenarioCircuit]
  refine ⟨hd, hb, ?_⟩
  rw [hb]
  norm_num

/-- C2 (amended): for the scenario track the difficulty factor is 1.1 (base
0.8 plus capped turn-density term min(0.3, (10 turns / 5 km)×0.1) = 0.2 plus
medium-speed category term 0.1) and the segment base time is
100 × (5000/5000) × 1.1 = 110 seconds. -/
theorem scenario_difficulty_amended :
    scenarioCircuit.calculate_sector_difficulty 1 =
      0.8 + min 0.3 ((10 / (5000 / 1000)) * 0.1) + 0.1 ∧
    scenarioCircuit.get_sector_base_time 1 = 100 * (5000 / 5000) * (11/10) := by
  have h : scenarioCircuit.get_sector_data 1 = some scenarioSector := rfl
  constructor
  · unfold Circuit.calculate_sector_difficulty
    rw [h]
    norm_num [scenarioSector, min_def, max_def,
      show ¬(("medium_speed" : String) = "low_speed") from by decide]
  · have hd : scenarioCircuit.calculate_sector_difficulty 1 = 11/10 := by
      unfold Circuit.calculate_sector_difficulty
      rw [h]
      norm_num [scenarioSector, min_def, max_def,
        show ¬(("medium_speed" : String) = "low_speed") from by decide]
    unfold Circuit.get_sector_base_time
    rw [h, hd]
    show scenarioCircuit.base_lap_time * (scenarioSector.length / scenarioCircuit.length) * (11/10) =
      100 * (5000 / 5000) * (11/10)
    norm_num [scenarioSector, scenarioCircuit]

/-- C6: the fuel time penalty is fuel × (length/1000) × 0.035; for a fixed
positive track length it is strictly increasing in fuel mass, doubling the
fuel doubles it exactly, and the 110 kg and 20 kg penalties on a 5000 m track
stand in ratio 5.5. -/
theorem fuel_penalty_linear_law (L : ℚ) (hL : 0 < L) :
    (∀ f : ℚ, fuel_weight_to_lap_time f L = f * (L / 1000) * 0.035) ∧
    (∀ f1 f2 : ℚ, 0 ≤ f1 → f1 < f2 →
      fuel_weight_to_lap_time f1 L < fuel_weight_to_lap_time f2 L) ∧
    (∀ f : ℚ, fuel_weight_to_lap_time (2 * f) L = 2 * fuel_weight_to_lap_time f L) ∧
    fuel_weight_to_lap_time 110 5000 = (11/2) * fuel_weight_to_lap_time 20 5000 := by
  refine ⟨fun f => rfl, fun f1 f2 _ h12 => ?_, fun f => by
    unfold fuel_weight_to_lap_time; ring, by norm_num [fuel_weight_to_lap_time]⟩
  unfold fuel_weight_to_lap_time
  have hpos : 0 < L / 1000 * 0.035 := by positivity
  calc f1 * (L / 1000) * 0.035 = f1 * (L / 1000 * 0.035) := by ring
    _ < f2 * (L / 1000 * 0.035) := by exact mul_lt_mul_of_pos_right h12 hpos
    _ = f2 * (L / 1000) * 0.035 := by ring

/-- Witness for the fuel-penalty law on the 5000 m track. -/
theorem fuel_penalty_linear_law_witness :
    fuel_weight_to_lap_time 20 5000 = 20 * (5000 / 1000) * 0.035 ∧
    fuel_weight_to_lap_time 20 5000 < fuel_weight_to_lap_time 110 5000 ∧
    fuel_weight_to_lap_time (2 * 55) 5000 = 2 * fuel_weight_to_lap_time 55 5000 ∧
    fuel_weight_to_lap_time 110 5000 = (11/2) * fuel_weight_to_lap_time 20 5000 := by
  have h := fuel_penalty_linear_law 5000 (by norm_num)
  exact ⟨h.1 20, h.2.1 20 110 (by norm_num) (by norm_num), h.2.2.1 55, h.2.2.2⟩

/-- C4: with at least one peak lap and a non-negative degradation rate, the
degradation multiplier is non-increasing once the lap number exceeds
`peak_performance_laps`, never falls below 0.7, and on the warm-up side equals
the capped ramp min(1.0, 0.95 + (lap/peak)×0.05). -/
theorem tire_degradation_monotone_floor (t : TireCompound)
    (hpeak : 1 ≤ t.peak_performance_laps) (hrate : 0 ≤ t.degradation_rate) :
    (∀ l1 l2 : ℕ, t.peak_performance_laps < l1 → l1 ≤ l2 →
      calculate_tire_degradation l2 t ≤ calculate_tire_degradation l1 t) ∧
    (∀ l : ℕ, 0.7 ≤ calculate_tire_degradation l t) ∧
    (∀ l : ℕ, l ≤ t.peak_performance_laps →
      calculate_tire_degradation l t =
        min 1.0 (0.95 + ((l : ℚ) / (t.peak_performance_laps : ℚ)) * 0.05)) := by
  refine ⟨?_, ?_, ?_⟩
  · intro l1 l2 h1 h12
    simp only [calculate_tire_degradation]
    rw [if_neg (show ¬(l2 ≤ t.peak_performance_laps) by omega),
        if_neg (show ¬(l1 ≤ t.peak_performance_laps) by omega)]
    apply max_le_max le_rfl
    have hc : (l1 : ℚ) ≤ (l2 : ℚ) := by exact_mod_cast h12
    nlinarith
  · intro l
    simp only [calculate_tire_degradation]
    split
    · refine le_min (by norm_num) ?_
      have h0 : (0:ℚ) ≤ ((l : ℚ) / (t.peak_performance_laps : ℚ)) * 0.05 := by positivity
      norm_num
      linarith
    · exact le_max_left _ _
  · intro l hl
    simp only [calculate_tire_degradation]
    rw [if_pos hl]

/-- Witness for the degradation shape on the medium compound (peak 10,
rate 0.02). -/
theorem tire_degradation_monotone_floor_witness :
    calculate_tire_degradation 12 mediumCompound ≤ calculate_tire_degradation 11 mediumCompound ∧
    (0.7 : ℚ) ≤ calculate_tire_degradation 25 mediumCompound ∧
    calculate_tire_degradation 5 mediumCompound =
      min 1.0 (0.95 + ((5 : ℚ) / ((mediumCompound.peak_performance_laps : ℕ) : ℚ)) * 0.05) := by
  have h := tire_degradation_monotone_floor mediumCompound (by norm_num [mediumCompound])
    (by norm_num [mediumCompound])
  exact ⟨h.1 11 12 (by norm_num [mediumCompound]) (by norm_num), h.2.1 25,
    h.2.2 5 (by norm_num [mediumCompound])⟩

/-- C10: updating the tire state with a sector category outside the three
known ones sets the current lap and leaves the tire temperature unchanged
(the unknown category contributes a zero delta, and the function is total, so
no error is raised). -/
theorem update_tire_state_unknown_category (c : Car) (lap : ℕ) (st : String)
    (h1 : st ≠ "low_speed") (h2 : st ≠ "medium_speed") (h3 : st ≠ "high_speed")
    (hlo : 60 ≤ c.tire_temperature) (hhi : c.tire_temperature ≤ 140) :
    c.update_tire_state lap st = c.setCurrentLap lap := by
  unfold Car.update_tire_state Car.setCurrentLap tempChange
  rw [if_neg h1, if_neg h2, if_neg h3]
  have ht : max 60 (min 140 (c.tire_temperature + 0)) = c.tire_temperature := by
    rw [add_zero, min_eq_right hhi, max_eq_right hlo]
  rw [ht]

/-- Witness: an unrecognised category ("rain") on the fixture car. -/
theorem update_tire_state_unknown_category_witness :
    carFixture.update_tire_state 3 "rain" = carFixture.setCurrentLap 3 :=
  update_tire_state_unknown_category carFixture 3 "rain" (by decide) (by decide) (by decide)
    (by norm_num [carFixture]) (by norm_num [carFixture])

/-- C9: every car state reachable through the code's mutators keeps its tire
temperature in [60, 140]: construction starts it at 90, `update_tire_state`
clamps to [60, 140], and the remaining mutators do not touch it. -/
theorem reachable_tire_temperature_in_range (tire_data : TireData) (c : Car)
    (h : CarReachable tire_data c) :
    60 ≤ c.tire_temperature ∧ c.tire_temperature ≤ 140 := by
  induction h with
  | init tire_compound fuel_load c hok =>
    unfold Car.init at hok
    split at hok
    · exact absurd hok (by simp)
    · split at hok
      · injection hok with hC
        subst hC
        constructor <;> norm_num
      · exact absurd hok (by simp)
  | setup c downforce engine_mode ers_deployment c1 _ hok ih =>
    unfold Car.set_setup at hok
    split at hok
    · exact absurd hok (by simp)
    · split at hok
      · exact absurd hok (by simp)
      · split at hok
        · exact absurd hok (by simp)
        · injection hok with hC
          subst hC
          simpa using ih
  | tire_state c lap_number sector_type _ ih =>
    simp only [Car.update_tire_state]
    constructor
    · exact le_max_left _ _
    · exact max_le (by norm_num) (min_le_left _ _)
  | lap_index c lap _ ih =>
    simpa [Car.setCurrentLap] using ih

/-- Witness: the freshly constructed fixture car is reachable and its tire
temperature (90) is in range. -/
theorem reachable_tire_temperature_in_range_witness :
    60 ≤ carFixture.tire_temperature ∧ carFixture.tire_temperature ≤ 140 :=
  reachable_tire_temperature_in_range tireDataFixture carFixture
    (CarReachable.init "medium" 50 carFixture rfl)

/-- A key absent from an association list's key column is not found. -/
theorem lookup_none_of_not_mem_keys {β : Type} {k : String} {l : List (String × β)}
    (h : k ∉ l.map Prod.fst) : List.lookup k l = none := by
  rw [List.lookup_eq_none_iff]
  intro p hp
  simp only [bne_iff_ne, ne_eq]
  intro he
  exact h (he ▸ List.mem_map_of_mem Prod.fst hp)

/-- C8: every invalid input is rejected immediately with a raised error and
the object is never constructed or updated: unknown circuit name, unknown
tire compound, fuel mass outside [0,110], downforce outside [1,10], engine or
ERS mode outside the enumerated sets, unknown weather name, unknown track
condition, and aggression outside [0,1]. -/
theorem validation_errors_surface :
    (∀ (circuits_data : List (String × CircuitEntry)) (name : String),
      name ∉ circuits_data.map Prod.fst →
      exceptIsError (Circuit.init circuits_data name) = true) ∧
    (∀ (tire_data : TireData) (compound : String) (fuel : ℚ),
      compound ∉ tire_data.tire_compounds.map Prod.fst →
      exceptIsError (Car.init tire_data compound fuel) = true) ∧
    (∀ (tire_data : TireData) (compound : String) (fuel : ℚ),
      ¬(0 ≤ fuel ∧ fuel ≤ 110) →
      exceptIsError (Car.init tire_data compound fuel) = true) ∧
    (∀ (c : Car) (downforce : ℤ) (em ers : String),
      ¬(1 ≤ downforce ∧ downforce ≤ 10) →
      exceptIsError (c.set_setup downforce em ers) = true) ∧
    (∀ (c : Car) (downforce : ℤ) (em ers : String),
      em ∉ ["quali", "race", "conservation"] →
      exceptIsError (c.set_setup downforce em ers) = true) ∧
    (∀ (c : Car) (downforce : ℤ) (em ers : String),
      ers ∉ ["auto", "aggressive", "conservative"] →
      exceptIsError (c.set_setup downforce em ers) = true) ∧
    (∀ (weather_data : WeatherData) (circuit : Circuit) (weather : String),
      weather ∉ weather_data.weather_conditions.map Prod.fst →
      exceptIsError (Sim.init weather_data circuit weather) = true) ∧
    (∀ (s : Sim) (condition : String),
      condition ∉ s.weather_data.track_conditions.map Prod.fst →
      exceptIsError (s.set_track_condition condition) = true) ∧
    (∀ (s : Sim) (aggression : ℚ) (use_drs : Bool),
      ¬(0 ≤ aggression ∧ aggression ≤ 1) →
      exceptIsError (s.set_driver_parameters aggression use_drs) = true) := by
  refine ⟨?_, ?_, ?_, ?_, ?_, ?_, ?_, ?_, ?_⟩
  · intro circuits_data name h
    unfold Circuit.init
    rw [lookup_none_of_not_mem_keys h]
    rfl
  · intro tire_data compound fuel h
    unfold Car.init
    rw [lookup_none_of_not_mem_keys h]
    rfl
  · intro tire_data compound fuel h
    unfold Car.init
    split
    · rfl
    · rw [if_neg h]
      rfl
  · intro c downforce em ers h
    unfold Car.set_setup
    split_ifs <;> rfl
  · intro c downforce em ers h
    unfold Car.set_setup
    split_ifs <;> rfl
  · intro c downforce em ers h
    unfold Car.set_setup
    split_ifs <;> rfl
  · intro weather_data circuit weather h
    unfold Sim.init
    rw [lookup_none_of_not_mem_keys h]
    rfl
  · intro s condition h
    unfold Sim.set_track_condition
    rw [lookup_none_of_not_mem_keys h]
    rfl
  · intro s aggression use_drs h
    unfold Sim.set_driver_parameters
    rw [if_pos h]
    rfl

/-- Witness: each validation rule rejecting a concrete bad input. -/
theorem validation_errors_surface_witness :
    exceptIsError (Circuit.init [] "imola") = true ∧
    exceptIsError (Car.init tireDataFixture "slick" 50) = true ∧
    exceptIsError (Car.init tireDataFixture "medium" 200) = true ∧
    exceptIsError (carFixture.set_setup 11 "race" "auto") = true ∧
    exceptIsError (carFixture.set_setup 5 "overdrive" "auto") = true ∧
    exceptIsError (carFixture.set_setup 5 "race" "maximal") = true ∧
    exceptIsError (Sim.init weatherDataFixture scenarioCircuit "hail") = true ∧
    exceptIsError (simFixture.set_track_condition "muddy") = true ∧
    exceptIsError (simFixture.set_driver_parameters 2 true) = true := by
  have h := validation_errors_surface
  refine ⟨h.1 [] "imola" (by simp), ?_, ?_, ?_, ?_, ?_, ?_, ?_, ?_⟩
  · exact h.2.1 tireDataFixture "slick" 50 (by simp [tireDataFixture])
  · exact h.2.2.1 tireDataFixture "medium" 200 (by norm_num)
  · exact h.2.2.2.1 carFixture 11 "race" "auto" (by norm_num)
  · exact h.2.2.2.2.1 carFixture 5 "overdrive" "auto" (by simp)
  · exact h.2.2.2.2.2.1 carFixture 5 "race" "maximal" (by simp)
  · exact h.2.2.2.2.2.2.1 weatherDataFixture scenarioCircuit "hail"
      (by simp [weatherDataFixture])
  · exact h.2.2.2.2.2.2.2.1 simFixture "muddy" (by simp [simFixture, weatherDataFixture])
  · exact h.2.2.2.2.2.2.2.2 simFixture 2 true (by norm_num)

/-- With a non-negative degradation rate the degradation multiplier is always
in (0, 1]: the warm-up ramp is capped at 1 and sits above 0.95, the decline is
floored at 0.7. -/
theorem degradation_pos_le_one (lap : ℕ) (t : TireCompound)
    (hrate : 0 ≤ t.degradation_rate) :
    0 < calculate_tire_degradation lap t ∧ calculate_tire_degradation lap t ≤ 1 := by
  simp only [calculate_tire_degradation]
  split
  · have h0 : (0:ℚ) ≤ ((lap : ℚ) / (t.peak_performance_laps : ℚ)) * 0.05 := by positivity
    constructor
    · refine lt_min (by norm_num) ?_
      linarith
    · have h := min_le_left (1.0 : ℚ) (0.95 + ((lap : ℚ) / (t.peak_performance_laps : ℚ)) * 0.05)
      linarith
  · next h =>
    have hcast : (t.peak_performance_laps : ℚ) < (lap : ℚ) := by
      exact_mod_cast Nat.not_le.mp h
    constructor
    · have h07 := le_max_left (0.7 : ℚ) (1.0 - ((lap : ℚ) - (t.peak_performance_laps : ℚ)) * t.degradation_rate)
      linarith
    · refine max_le (by norm_num) ?_
      nlinarith

/-- With grip losses in [0, 1) and an optimal band whose low end is below 460
and high end above −260, the temperature effect of a tire temperature in
[60, 140] lies in (0, 1]. -/
theorem temperature_effect_bounds (td : TireData) (c : Car) (t : TireCompound) (te : ℚ)
    (hlk : List.lookup c.tire_compound td.tire_compounds = some t)
    (hT0 : 60 ≤ c.tire_temperature) (hT1 : c.tire_temperature ≤ 140)
    (hc0 : 0 ≤ td.tire_temperature_effects.cold_grip_loss)
    (hc1 : td.tire_temperature_effects.cold_grip_loss < 1)
    (hh0 : 0 ≤ td.tire_temperature_effects.overheated_grip_loss)
    (hh1 : td.tire_temperature_effects.overheated_grip_loss < 1)
    (hlow : t.optimal_temp_low < 460)
    (hhigh : -260 < t.optimal_temp_high)
    (hte : Car.calculate_temperature_effect td c = some te) :
    0 < te ∧ te ≤ 1 := by
  unfold Car.calculate_temperature_effect at hte
  rw [hlk] at hte
  injection hte with hte
  subst hte
  split_ifs with h1 h2 h3 h4
  · norm_num
  · constructor <;> linarith
  · constructor <;> linarith
  · constructor <;> linarith
  · have hgt : t.optimal_temp_high < c.tire_temperature := by
      rcases not_and_or.mp h1 with hx | hx
      · exact absurd (not_lt.mp h4) hx
      · exact lt_of_not_le hx
    constructor <;> linarith

/-- C5 (amended): for a compound with positive base grip, grip losses in
[0, 1), non-negative degradation rate, and an optimal temperature band whose
low end is below 460 and high end above −260 (so the out-of-band linear
interpolation cannot reach zero), any tire-performance reading at a tire
temperature in [60, 140] has strictly positive effective grip, bounded by
base grip × 1.05. -/
theorem effective_grip_bounds (td : TireData) (c : Car) (lap : ℕ) (t : TireCompound)
    (p : TirePerformance)
    (hlk : List.lookup c.tire_compound td.tire_compounds = some t)
    (hT0 : 60 ≤ c.tire_temperature) (hT1 : c.tire_temperature ≤ 140)
    (hgrip : 0 < t.grip_modifier)
    (hc0 : 0 ≤ td.tire_temperature_effects.cold_grip_loss)
    (hc1 : td.tire_temperature_effects.cold_grip_loss < 1)
    (hh0 : 0 ≤ td.tire_temperature_effects.overheated_grip_loss)
    (hh1 : td.tire_temperature_effects.overheated_grip_loss < 1)
    (hrate : 0 ≤ t.degradation_rate)
    (hlow : t.optimal_temp_low < 460)
    (hhigh : -260 < t.optimal_temp_high)
    (hperf : c.get_tire_performance td lap = some p) :
    0 < p.effective_grip ∧ p.effective_grip ≤ t.grip_modifier * 1.05 := by
  unfold Car.get_tire_performance at hperf
  rw [hlk] at hperf
  rcases hte : Car.calculate_temperature_effect td c with _ | te
  · rw [hte] at hperf
    exact absurd hperf (by simp)
  · rw [hte] at hperf
    injection hperf with hp
    subst hp
    obtain ⟨hd0, hd1⟩ := degradation_pos_le_one lap t hrate
    obtain ⟨ht0, ht1⟩ := temperature_effect_bounds td c t te hlk hT0 hT1 hc0 hc1 hh0 hh1
      hlow hhigh hte
    constructor
    · exact mul_pos (mul_pos hgrip hd0) ht0
    · have hmul1 : t.grip_modifier * calculate_tire_degradation lap t * te ≤
          t.grip_modifier * calculate_tire_degradation lap t * 1 :=
        mul_le_mul_of_nonneg_left ht1 (le_of_lt (mul_pos hgrip hd0))
      have hmul2 : t.grip_modifier * calculate_tire_degradation lap t ≤ t.grip_modifier * 1 :=
        mul_le_mul_of_nonneg_left hd1 (le_of_lt hgrip)
      nlinarith

/-- A compound table whose cold grip loss is negative (still < 1, as the
claim requires) and whose compound has unit base grip. -/
def badCompound : TireCompound :=
  { grip_modifier := 1
    optimal_temp_low := 120
    optimal_temp_high := 130
    peak_performance_laps := 10
    degradation_rate := 1/50
    life_span := 30 }

/-- tires.json data with a negative cold grip loss. -/
def badTireData : TireData :=
  { tire_compounds := [("test", badCompound)]
    tire_temperature_effects :=
      { cold_temp_threshold := 100
        cold_grip_loss := -1
        overheated_temp_threshold := 200
        overheated_grip_loss := 0.3 } }

/-- The fixture car on the `test` compound at 60 degrees. -/
def badCar : Car :=
  { carFixture with tire_compound := "test", tire_temperature := 60 }

/-- C5 counterexample: a compound with base grip 1 > 0 and both grip losses
strictly below 1 (cold loss −1), evaluated at tire temperature 60 ∈ [60,140],
yields effective grip 1 × 0.955 × 2 = 1.91, exceeding base grip × 1.05 —
the claim's hypotheses do not exclude negative grip losses, for which the
bound fails. -/
theorem effective_grip_counterexample :
    (60 ≤ badCar.tire_temperature ∧ badCar.tire_temperature ≤ 140) ∧
    0 < badCompound.grip_modifier ∧
    badTireData.tire_temperature_effects.cold_grip_loss < 1 ∧
    badTireData.tire_temperature_effects.overheated_grip_loss < 1 ∧
    Option.map (fun p => p.effective_grip) (badCar.get_tire_performance badTireData 1) =
      some (191/100) ∧
    ¬((191 : ℚ)/100 ≤ badCompound.grip_modifier * 1.05) := by
  have hlk : List.lookup badCar.tire_compound badTireData.tire_compounds = some badCompound := rfl
  have hte : Car.calculate_temperature_effect badTireData badCar = some 2 := by
    unfold Car.calculate_temperature_effect
    rw [hlk]
    norm_num [badCar, badCompound, badTireData, carFixture]
  refine ⟨⟨by norm_num [badCar, carFixture], by norm_num [badCar, carFixture]⟩,
    by norm_num [badCompound], by norm_num [badTireData], by norm_num [badTireData], ?_,
    by norm_num [badCompound]⟩
  have hdeg : calculate_tire_degradation 1 badCompound = 191/200 := by
    simp only [calculate_tire_degradation]
    rw [if_pos (by norm_num [badCompound])]
    norm_num [badCompound, min_def]
  unfold Car.get_tire_performance
  rw [hlk, hte]
  simp only [Option.map_some']
  congr 1
  rw [hdeg]
  norm_num [badCompound]

/-- The tire-performance reading of the fixture car on lap 1. -/
def perfFixture : TirePerformance :=
  (carFixture.get_tire_performance tireDataFixture 1).getD
    { base_grip := 0, degradation_multiplier := 0, temperature_effect := 0, effective_grip := 0,
      compound := "", lap_number := 0, tire_life_remaining := 0 }

/-- Witness for the amended C5 bounds on the medium-compound fixture at the
initial state (grip 1 × degradation 0.955 × temperature effect 1). -/
theorem effective_grip_bounds_witness :
    0 < perfFixture.effective_grip ∧
    perfFixture.effective_grip ≤ mediumCompound.grip_modifier * 1.05 :=
  effective_grip_bounds tireDataFixture carFixture 1 mediumCompound perfFixture
    rfl
    (by norm_num [carFixture]) (by norm_num [carFixture])
    (by norm_num [mediumCompound])
    (by norm_num [tireDataFixture]) (by norm_num [tireDataFixture])
    (by norm_num [tireDataFixture]) (by norm_num [tireDataFixture])
    (by norm_num [mediumCompound])
    (by norm_num [mediumCompound]) (by norm_num [mediumCompound])
    rfl

/-- The variance step reads the stream only at its cursor. -/
theorem varianceStep_congr (v t : ℚ) (σ τ : ℕ → ℚ) (i : ℕ) (h : σ i = τ i) :
    varianceStep v t σ i = varianceStep v t τ i := by
  unfold varianceStep
  rw [h]

/-- The variance step advances the cursor by at most one draw. -/
theorem varianceStep_idx (v t : ℚ) (σ : ℕ → ℚ) (i : ℕ) :
    i ≤ (varianceStep v t σ i).2 ∧ (varianceStep v t σ i).2 ≤ i + 1 := by
  unfold varianceStep
  split <;> simp

/-- The mistake step reads the stream only at its cursor and its successor. -/
theorem mistakeStep_congr (mp t : ℚ) (σ τ : ℕ → ℚ) (i : ℕ)
    (h0 : σ i = τ i) (h1 : σ (i + 1) = τ (i + 1)) :
    mistakeStep mp t σ i = mistakeStep mp t τ i := by
  unfold mistakeStep
  rw [h0, h1]

/-- The mistake step advances the cursor by one or two draws. -/
theorem mistakeStep_idx (mp t : ℚ) (σ : ℕ → ℚ) (i : ℕ) :
    i + 1 ≤ (mistakeStep mp t σ i).2.2 ∧ (mistakeStep mp t σ i).2.2 ≤ i + 2 := by
  unfold mistakeStep
  split <;> simp

/-- A sector-time evaluation depends on the random stream only through the
(at most three) draws starting at its cursor. -/
theorem calculate_sector_time_congr (tire_data : TireData) (s : Sim) (car : Car)
    (n lap : ℕ) (σ τ : ℕ → ℚ) (i : ℕ)
    (h : ∀ k, k < 3 → σ (i + k) = τ (i + k)) :
    calculate_sector_time tire_data s car n lap σ i =
      calculate_sector_time tire_data s car n lap τ i := by
  have h0 : σ i = τ i := by simpa using h 0 (by omega)
  have h1 : σ (i + 1) = τ (i + 1) := h 1 (by omega)
  have h2 : σ (i + 1 + 1) = τ (i + 1 + 1) := by
    have := h 2 (by omega)
    simpa [Nat.add_assoc] using this
  unfold calculate_sector_time
  rcases hsc : sectorCore tire_data s car n lap with e | core
  · rfl
  · have hv : varianceStep s.simulation_variance core.pre_random_time σ i =
        varianceStep s.simulation_variance core.pre_random_time τ i :=
      varianceStep_congr _ _ _ _ _ h0
    have hvi := varianceStep_idx s.simulation_variance core.pre_random_time τ i
    have hm : mistakeStep core.mistake_prob
        (varianceStep s.simulation_variance core.pre_random_time τ i).1 σ
        (varianceStep s.simulation_variance core.pre_random_time τ i).2 =
        mistakeStep core.mistake_prob
        (varianceStep s.simulation_variance core.pre_random_time τ i).1 τ
        (varianceStep s.simulation_variance core.pre_random_time τ i).2 := by
      have hcase : (varianceStep s.simulation_variance core.pre_random_time τ i).2 = i ∨
          (varianceStep s.simulation_variance core.pre_random_time τ i).2 = i + 1 := by omega
      rcases hcase with hj | hj <;> rw [hj]
      · exact mistakeStep_congr _ _ _ _ _ h0 h1
      · exact mistakeStep_congr _ _ _ _ _ h1 h2
    simp only [hv, hm]

/-- A successful sector-time evaluation advances the cursor by at most three
draws. -/
theorem calculate_sector_time_idx (tire_data : TireData) (s : Sim) (car : Car)
    (n lap : ℕ) (σ : ℕ → ℚ) (i : ℕ) (r : SectorResult) (car1 : Car) (i1 : ℕ)
    (h : calculate_sector_time tire_data s car n lap σ i = .ok (r, car1, i1)) :
    i ≤ i1 ∧ i1 ≤ i + 3 := by
  unfold calculate_sector_time at h
  rcases hsc : sectorCore tire_data s car n lap with e | core <;> rw [hsc] at h
  · exact absurd h (by simp)
  · injection h with h
    have hvi := varianceStep_idx s.simulation_variance core.pre_random_time σ i
    have hmi := mistakeStep_idx core.mistake_prob
      (varianceStep s.simulation_variance core.pre_random_time σ i).1 σ
      (varianceStep s.simulation_variance core.pre_random_time σ i).2
    have hi1 : i1 = (mistakeStep core.mistake_prob
        (varianceStep s.simulation_variance core.pre_random_time σ i).1 σ
        (varianceStep s.simulation_variance core.pre_random_time σ i).2).2.2 := by
      have := congrArg (fun x : SectorResult × Car × ℕ => x.2.2) h
      simpa using this.symm
    omega

/-- The sector loop depends on the random stream only through the draws in
the window of three per sector starting at its cursor. -/
theorem runSectors_congr (tire_data : TireData) (s : Sim) (lap : ℕ) :
    ∀ (ns : List ℕ) (car : Car) (σ τ : ℕ → ℚ) (i : ℕ),
    (∀ k, k < 3 * ns.length → σ (i + k) = τ (i + k)) →
    runSectors tire_data s lap ns car σ i = runSectors tire_data s lap ns car τ i := by
  intro ns
  induction ns with
  | nil => intro car σ τ i h; rfl
  | cons n ns ih =>
    intro car σ τ i h
    unfold runSectors
    have hfirst : calculate_sector_time tire_data s car n lap σ i =
        calculate_sector_time tire_data s car n lap τ i :=
      calculate_sector_time_congr tire_data s car n lap σ τ i
        (fun k hk => h k (by simp only [List.length_cons]; omega))
    rw [hfirst]
    rcases hr : calculate_sector_time tire_data s car n lap τ i with e | res
    · rfl
    · obtain ⟨r, car1, i1⟩ := res
      have hb := calculate_sector_time_idx tire_data s car n lap τ i r car1 i1 hr
      have hrec : runSectors tire_data s lap ns car1 σ i1 =
          runSectors tire_data s lap ns car1 τ i1 := by
        refine ih car1 σ τ i1 (fun k hk => ?_)
        have hsplit : i1 + k = i + ((i1 - i) + k) := by omega
        rw [hsplit]
        exact h ((i1 - i) + k) (by simp only [List.length_cons]; omega)
      simp only [hrec]

/-- C3: a full-lap evaluation is a function of the Track, Vehicle, conditions
and the finite prefix of the injected random stream it consumes (at most
three draws per segment, in a fixed order): two evaluations from the same
car state whose streams agree on that prefix produce identical LapResults,
identical final car states and identical final cursors. -/
theorem simulate_full_lap_deterministic (tire_data : TireData) (s : Sim) (car : Car)
    (lap : ℕ) (σ τ : ℕ → ℚ) (i : ℕ)
    (h : ∀ k, k < 3 * s.circuit.get_total_sectors → σ (i + k) = τ (i + k)) :
    simulate_full_lap tire_data s car lap σ i = simulate_full_lap tire_data s car lap τ i := by
  unfold simulate_full_lap
  rw [runSectors_congr tire_data s lap (List.range' 1 s.circuit.get_total_sectors) car σ τ i
    (by simpa [List.length_range'] using h)]

/-- Witness: two distinct streams that agree on the three draws a one-sector
lap can consume produce the same lap result. -/
theorem simulate_full_lap_deterministic_witness :
    simulate_full_lap tireDataFixture simFixture carFixture 1 (fun _ => 0) 0 =
      simulate_full_lap tireDataFixture simFixture carFixture 1
        (fun n => if n < 3 then 0 else 1) 0 :=
  simulate_full_lap_deterministic tireDataFixture simFixture carFixture 1
    (fun _ => 0) (fun n => if n < 3 then 0 else 1) 0
    (fun k hk => by
      have hs : simFixture.circuit.get_total_sectors = 1 := rfl
      rw [hs] at hk
      simp only [Nat.zero_add]
      rw [if_pos (by omega)])

/-- In a list strictly sorted by a rank function, an element of smaller rank
occurs before one of larger rank: the pair is a sublist. -/
theorem pair_sublist_of_rank {α : Type} (f : α → ℕ) :
    ∀ (l : List α), l.Pairwise (fun x y => f x < f y) →
    ∀ a b, a ∈ l → b ∈ l → f b < f a → List.Sublist [b, a] l := by
  intro l
  induction l with
  | nil => intro _ a b ha; simp at ha
  | cons c rest ih =>
    intro hp a b ha hb hba
    have hpc := List.pairwise_cons.mp hp
    rcases List.mem_cons.mp ha with rfl | ha'
    · rcases List.mem_cons.mp hb with rfl | hb'
      · omega
      · have := hpc.1 b hb'
        omega
    · rcases List.mem_cons.mp hb with rfl | hb'
      · exact List.Sublist.cons₂ _ (List.singleton_sublist.mpr ha')
      · exact List.Sublist.cons _ (ih hpc.2 a b ha' hb' hba)

/-- In a list strictly sorted by a rank function, equal ranks force equal
elements. -/
theorem rank_injective_on {α : Type} (f : α → ℕ) :
    ∀ (l : List α), l.Pairwise (fun x y => f x < f y) →
    ∀ a b, a ∈ l → b ∈ l → f a = f b → a = b := by
  intro l
  induction l with
  | nil => intro _ a b ha; simp at ha
  | cons c rest ih =>
    intro hp a b ha hb hfab
    have hpc := List.pairwise_cons.mp hp
    rcases List.mem_cons.mp ha with rfl | ha'
    · rcases List.mem_cons.mp hb with rfl | hb'
      · rfl
      · have := hpc.1 b hb'
        omega
    · rcases List.mem_cons.mp hb with rfl | hb'
      · have := hpc.1 a ha'
        omega
      · exact ih hpc.2 a b ha' hb' hfab

/-- Two distinct elements cannot occur in both orders in a duplicate-free
list. -/
theorem no_cross {α : Type} {a b : α} (hne : a ≠ b) :
    ∀ (l : List α), l.Nodup → List.Sublist [a, b] l → List.Sublist [b, a] l → False := by
  intro l
  induction l with
  | nil => intro _ h1; exact absurd h1 (by simp)
  | cons c rest ih =>
    intro hnd h1 h2
    have hnd' := List.nodup_cons.mp hnd
    cases h1 with
    | cons _ h1' =>
      cases h2 with
      | cons _ h2' => exact ih hnd'.2 h1' h2'
      | cons₂ _ h2' =>
        exact hnd'.1 (h1'.subset (by simp))
    | cons₂ _ h1' =>
      cases h2 with
      | cons _ h2' => exact hnd'.1 (h2'.subset (by simp))
      | cons₂ _ h2' => exact hne rfl

/-- Stability of the modelled Python sort: sorting a list that is strictly
ranked by `config_index` ascending with the total-time comparator keeps tied
candidates in input order. -/
theorem mergeSort_compLE_stable (l : List CompResult)
    (hp : l.Pairwise (fun x y => x.config_index < y.config_index)) :
    (l.mergeSort compLE).Pairwise
      (fun a b => a.result.total_time = b.result.total_time →
        a.config_index < b.config_index) := by
  have htrans : ∀ (a b c : CompResult), compLE a b → compLE b c → compLE a c := by
    intro a b c hab hbc
    simp only [compLE, decide_eq_true_eq] at hab hbc ⊢
    exact le_trans hab hbc
  have htotal : ∀ (a b : CompResult), compLE a b || compLE b a := by
    intro a b
    simp only [compLE, Bool.or_eq_true, decide_eq_true_eq]
    exact le_total _ _
  have hnd_l : l.Nodup := hp.imp (fun hxy he => by rw [he] at hxy; omega)
  have hnd : (l.mergeSort compLE).Nodup :=
    ((List.mergeSort_perm l compLE).nodup_iff).mpr hnd_l
  rw [List.pairwise_iff_forall_sublist]
  intro a b hsub heq
  have hmem_a : a ∈ l := by
    have := hsub.subset (show a ∈ [a, b] by simp)
    rwa [List.mem_mergeSort] at this
  have hmem_b : b ∈ l := by
    have := hsub.subset (show b ∈ [a, b] by simp)
    rwa [List.mem_mergeSort] at this
  have hne : a ≠ b := List.pairwise_iff_forall_sublist.mp hnd hsub
  rcases lt_trichotomy a.config_index b.config_index with h | h | h
  · exact h
  · exact absurd (rank_injective_on (fun r => r.config_index) l hp a b hmem_a hmem_b h) hne
  · have hba : List.Sublist [b, a] l :=
      pair_sublist_of_rank (fun r => r.config_index) l hp a b hmem_a hmem_b h
    have hle : compLE b a := by
      simp only [compLE, decide_eq_true_eq]
      exact le_of_eq heq.symm
    have hsorted : List.Sublist [b, a] (l.mergeSort compLE) :=
      List.pair_sublist_mergeSort htrans htotal hle hba
    exact absurd hsorted (fun hx => no_cross hne (l.mergeSort compLE) hnd hsub hx)

/-- `Car.__init__` stores the requested compound and fuel load and starts the
car on lap 1. -/
theorem Car.init_fields (tire_data : TireData) (compound : String) (fuel : ℚ) (c : Car)
    (h : Car.init tire_data compound fuel = .ok c) :
    c.tire_compound = compound ∧ c.fuel_load = fuel := by
  unfold Car.init at h
  split at h
  · exact absurd h (by simp)
  · split at h
    · injection h with h
      subst h
      exact ⟨rfl, rfl⟩
    · exact absurd h (by simp)

/-- `Car.set_setup` does not touch the compound or the fuel load. -/
theorem Car.set_setup_fields (c : Car) (downforce : ℤ) (em ers : String) (c1 : Car)
    (h : c.set_setup downforce em ers = .ok c1) :
    c1.tire_compound = c.tire_compound ∧ c1.fuel_load = c.fuel_load := by
  unfold Car.set_setup at h
  split_ifs at h
  injection h with h
  subst h
  exact ⟨rfl, rfl⟩

/-- A successful full-lap evaluation records the requested lap number and the
evaluated car's compound and fuel load in its result. -/
theorem simulate_full_lap_shape (tire_data : TireData) (s : Sim) (car : Car)
    (lap : ℕ) (σ : ℕ → ℚ) (i : ℕ) (lr : LapResult) (car1 : Car) (i1 : ℕ)
    (h : simulate_full_lap tire_data s car lap σ i = .ok (lr, car1, i1)) :
    lr.lap_number = lap ∧ lr.conditions.tire_compound = car.tire_compound ∧
    lr.conditions.fuel_load = car.fuel_load := by
  unfold simulate_full_lap at h
  split at h
  · exact absurd h (by simp)
  · split at h
    · exact absurd h (by simp)
    · injection h with h
      injection h with hlr hrest
      subst hlr
      exact ⟨rfl, rfl, rfl⟩

/-- The candidate loop of `compare_configurations`: one result per candidate,
config indices increasing from the starting index, and every entry evaluated
as a fresh single lap, at lap number 1, on an independent car built from its
own configuration's compound and fuel. -/
theorem runCompare_spec (tire_data : TireData) (s : Sim) :
    ∀ (configs : List Config) (idx : ℕ) (σ : ℕ → ℚ) (i : ℕ)
      (rs : List CompResult) (i2 : ℕ),
    runCompare tire_data s configs idx σ i = .ok (rs, i2) →
    rs.length = configs.length ∧
    (∀ r ∈ rs, idx ≤ r.config_index) ∧
    rs.Pairwise (fun a b => a.config_index < b.config_index) ∧
    (∀ r ∈ rs, r.result.lap_number = 1 ∧
      r.result.conditions.tire_compound = r.configuration.tire.getD "medium" ∧
      r.result.conditions.fuel_load = r.configuration.fuel.getD 50.0) := by
  intro configs
  induction configs with
  | nil =>
    intro idx σ i rs i2 h
    unfold runCompare at h
    injection h with h
    injection h with hrs hi
    subst hrs
    simp
  | cons cfg rest ih =>
    intro idx σ i rs i2 h
    unfold runCompare at h
    split at h
    · exact absurd h (by simp)
    · rename_i temp_car0 heq_init
      split at h
      · exact absurd h (by simp)
      · rename_i temp_car heq_setup
        split at h
        · exact absurd h (by simp)
        · rename_i sim0 heq_sim
          split at h
          · exact absurd h (by simp)
          · rename_i sim1 heq_driver
            split at h
            · exact absurd h (by simp)
            · rename_i sim2 heq_track
              split at h
              · exact absurd h (by simp)
              · rename_i lap_result car_after i1 heq_lap
                split at h
                · exact absurd h (by simp)
                · rename_i rs' i2' heq_rest
                  injection h with h
                  injection h with hrs hi
                  subst hrs
                  obtain ⟨hlen, hge, hpair, hfields⟩ :=
                    ih (idx + 1) σ i1 rs' i2' heq_rest
                  have hcompound : temp_car.tire_compound = cfg.tire.getD "medium" ∧
                      temp_car.fuel_load = cfg.fuel.getD 50.0 := by
                    have hinit := Car.init_fields tire_data (cfg.tire.getD "medium")
                      (cfg.fuel.getD 50.0) temp_car0 heq_init
                    rcases (show (if cfg.downforce.isSome || cfg.engine_mode.isSome ||
                        cfg.ers.isSome then
                        temp_car0.set_setup (cfg.downforce.getD 5) (cfg.engine_mode.getD "race")
                          (cfg.ers.getD "auto")
                      else .ok temp_car0) = .ok temp_car from heq_setup) with hs
                    split at hs
                    · have hset := Car.set_setup_fields temp_car0 (cfg.downforce.getD 5)
                        (cfg.engine_mode.getD "race") (cfg.ers.getD "auto") temp_car hs
                      exact ⟨hset.1.trans hinit.1, hset.2.trans hinit.2⟩
                    · injection hs with hs
                      subst hs
                      exact hinit
                  have hshape := simulate_full_lap_shape tire_data sim2 temp_car 1 σ i
                    lap_result car_after i1 heq_lap
                  refine ⟨by simpa using hlen, ?_, ?_, ?_⟩
                  · intro r hr
                    rcases List.mem_cons.mp hr with rfl | hr'
                    · simp
                    · have := hge r hr'
                      omega
                  · refine List.pairwise_cons.mpr ⟨?_, hpair⟩
                    intro r hr
                    have := hge r hr
                    simp only
                    omega
                  · intro r hr
                    rcases List.mem_cons.mp hr with rfl | hr'
                    · exact ⟨hshape.1, hshape.2.1.trans hcompound.1, hshape.2.2.trans hcompound.2⟩
                    · exact hfields r hr'

/-- The total-time comparator is transitive. -/
theorem compLE_trans : ∀ (a b c : CompResult), compLE a b → compLE b c → compLE a c := by
  intro a b c hab hbc
  simp only [compLE, decide_eq_true_eq] at hab hbc ⊢
  exact le_trans hab hbc

/-- The total-time comparator is total. -/
theorem compLE_total : ∀ (a b : CompResult), compLE a b || compLE b a := by
  intro a b
  simp only [compLE, Bool.or_eq_true, decide_eq_true_eq]
  exact le_total _ _

/-- C7: a successful configuration comparison returns one entry per candidate
(length preserved), sorted non-decreasing by total lap time, with ties broken
by input order (the stable sort keeps config indices increasing on equal
times), and every entry is a fresh lap-1 evaluation of an independent car
built from its own candidate's compound and fuel. -/
theorem compare_configurations_sorted_stable (tire_data : TireData) (s : Sim)
    (configs : List Config) (σ : ℕ → ℚ) (i : ℕ) (out : List CompResult) (i1 : ℕ)
    (h : compare_configurations tire_data s configs σ i = .ok (out, i1)) :
    out.length = configs.length ∧
    out.Pairwise (fun a b => a.result.total_time ≤ b.result.total_time) ∧
    out.Pairwise (fun a b => a.result.total_time = b.result.total_time →
      a.config_index < b.config_index) ∧
    (∀ r ∈ out, r.result.lap_number = 1 ∧
      r.result.conditions.tire_compound = r.configuration.tire.getD "medium" ∧
      r.result.conditions.fuel_load = r.configuration.fuel.getD 50.0) := by
  unfold compare_configurations at h
  split at h
  · exact absurd h (by simp)
  · rename_i results i2 heq_run
    injection h with h
    injection h with hout hi
    subst hout
    obtain ⟨hlen, -, hpair, hfields⟩ :=
      runCompare_spec tire_data s configs 0 σ i results i2 heq_run
    refine ⟨?_, ?_, ?_, ?_⟩
    · rw [List.length_mergeSort]
      exact hlen
    · refine List.Pairwise.imp ?_ (List.sorted_mergeSort compLE_trans compLE_total results)
      intro a b hab
      simpa [compLE] using hab
    · exact mergeSort_compLE_stable results hpair
    · intro r hr
      exact hfields r (List.mem_mergeSort.mp hr)

/-- Two candidate configurations: the same compound with heavy and light
fuel. -/
def compareConfigsFixture : List Config :=
  [{ tire := some "medium", fuel := some 110, downforce := none, engine_mode := none, ers := none },
   { tire := some "medium", fuel := some 20, downforce := none, engine_mode := none, ers := none }]

/-- The comparison run on the scenario circuit with the zero stream. -/
def compareFixture : Except String (List CompResult × ℕ) :=
  compare_configurations tireDataFixture simFixture compareConfigsFixture (fun _ => 0) 0

/-- The sorted candidate list of the fixture comparison. -/
def compareFixtureOut : List CompResult :=
  ((compareFixture.toOption).getD ([], 0)).1

/-- The final random cursor of the fixture comparison. -/
def compareFixtureCursor : ℕ :=
  ((compareFixture.toOption).getD ([], 0)).2

set_option maxRecDepth 4000 in
/-- Witness: the two-candidate fixture comparison succeeds and enjoys the
sortedness, stability, length and freshness properties. -/
theorem compare_configurations_sorted_stable_witness :
    compareFixtureOut.length = compareConfigsFixture.length ∧
    compareFixtureOut.Pairwise (fun a b => a.result.total_time ≤ b.result.total_time) ∧
    compareFixtureOut.Pairwise (fun a b => a.result.total_time = b.result.total_time →
      a.config_index < b.config_index) ∧
    (∀ r ∈ compareFixtureOut, r.result.lap_number = 1 ∧
      r.result.conditions.tire_compound = r.configuration.tire.getD "medium" ∧
      r.result.conditions.fuel_load = r.configuration.fuel.getD 50.0) :=
  compare_configurations_sorted_stable tireDataFixture simFixture compareConfigsFixture
    (fun _ => 0) 0 compareFixtureOut compareFixtureCursor (by with_unfolding_all rfl)
